import Mathlib

/-!
Verification of the client-side authentication/session state machine of the
PovertyLine frontend (src/frontend/src/features/auth/authSlice.js) and its
protected-route guard (src/frontend/src/components/common/ProtectedRoute.js).

The Redux slice is embedded shallowly:
* `AuthState` is the slice state (`initialState` shape).
* `Env` is the ambient browser environment the thunks mutate: the axios
  default Authorization header and the localStorage "token" key.
* Each async thunk is a function from its remote outcome and the environment
  to a settled result (`Except` for fulfilled/rejected) and the new
  environment; each `addCase` reducer is a function on `AuthState`.
* `step` runs one full operation (pending reducer, thunk body, settled
  reducer) and `runOps` a sequence of operations, matching the store's
  behavior when operations do not overlap.

JavaScript truthiness is modelled explicitly: `jsTruthy` for strings that may
be absent (undefined/null map to `none`), and `jsOr` for the `a || b`
fallback idiom, under which the empty string is falsy.
-/

namespace PovertyLine

/-- A user record as returned by the auth endpoints (`{id, username, email, role}`). -/
structure User where
  id : Nat
  username : String
  email : String
  role : String
deriving DecidableEq, Repr

/-- JavaScript truthiness of a value that is either a string or absent
(undefined/null): absent and the empty string are falsy. -/
def jsTruthy : Option String → Bool
  | none => false
  | some s => s ≠ ""

/-- The JavaScript `a || b` fallback on an optional string: yields `b` when
`a` is absent or falsy (empty). Used by every thunk's error normalization,
`error.response?.data?.error || fallback`. -/
def jsOr (a : Option String) (b : String) : String :=
  match a with
  | none => b
  | some s => if s = "" then b else s

/-- The browser-side environment mutated by the thunks:
`header` is `axios.defaults.headers.common.Authorization` (the bearer token it
carries, `none` when the header is deleted), `lsToken` is
`localStorage.getItem('token')`. -/
structure Env where
  header : Option String
  lsToken : Option String
deriving DecidableEq, Repr

/-- `setAuthToken(token)`: if the token is truthy, set the axios header and
write localStorage; otherwise delete the header and remove the key. -/
def setAuthToken (token : Option String) (_e : Env) : Env :=
  if jsTruthy token then
    { header := token, lsToken := token }
  else
    { header := none, lsToken := none }

/-- The Redux auth slice state (the `initialState` shape). -/
structure AuthState where
  token : Option String
  isAuthenticated : Bool
  user : Option User
  isLoading : Bool
  error : Option String
deriving DecidableEq, Repr

/-- Response body of `POST /api/auth/register` and `POST /api/auth/login`:
`{access_token, user}`. -/
structure AuthPayload where
  access_token : String
  user : User
deriving DecidableEq, Repr

/-- Response body of `GET /api/auth/me`: `{user}`. -/
structure MePayload where
  user : User
deriving DecidableEq, Repr

/-- Outcome of a register/login HTTP request: either the response payload, or
a failure carrying `error.response?.data?.error` (absent when the failure has
no structured server message). -/
inductive ApiResult where
  | ok (payload : AuthPayload)
  | err (serverError : Option String)
deriving DecidableEq, Repr

/-- Outcome of the `GET /api/auth/me` verification request. -/
inductive MeResult where
  | ok (payload : MePayload)
  | err (serverError : Option String)
deriving DecidableEq, Repr

/-- The `register` thunk: on success it persists the token via `setAuthToken`
and fulfills with the response body; on failure it rejects with the server
error or the fallback "Registration failed", leaving the environment alone. -/
def register (r : ApiResult) (e : Env) : Except String AuthPayload × Env :=
  match r with
  | ApiResult.ok p => (Except.ok p, setAuthToken (some p.access_token) e)
  | ApiResult.err se => (Except.error (jsOr se "Registration failed"), e)

/-- The `login` thunk: same shape as `register`, fallback "Login failed". -/
def login (r : ApiResult) (e : Env) : Except String AuthPayload × Env :=
  match r with
  | ApiResult.ok p => (Except.ok p, setAuthToken (some p.access_token) e)
  | ApiResult.err se => (Except.error (jsOr se "Login failed"), e)

/-- Result of the `checkAuthStatus` thunk body: the settled result, the new
environment, and whether the `GET /api/auth/me` request was actually issued. -/
structure CheckResult where
  result : Except String MePayload
  env : Env
  requestedMe : Bool
deriving Repr

/-- The `checkAuthStatus` thunk: read the token from localStorage; if it is
falsy, reject with "No token found" without touching the network; otherwise
re-install it via `setAuthToken` and issue `GET /api/auth/me`; on request
failure clear the token (`setAuthToken(null)`) and reject with the server
error or "Authentication failed". -/
def checkAuthStatus (r : MeResult) (e : Env) : CheckResult :=
  match e.lsToken with
  | none => ⟨Except.error "No token found", e, false⟩
  | some t =>
    if t = "" then
      ⟨Except.error "No token found", e, false⟩
    else
      match r with
      | MeResult.ok p => ⟨Except.ok p, setAuthToken (some t) e, true⟩
      | MeResult.err se =>
        ⟨Except.error (jsOr se "Authentication failed"),
          setAuthToken none (setAuthToken (some t) e), true⟩

/-- The `logout` thunk: whether or not `POST /api/auth/logout` succeeds,
clear the token locally and fulfill with `null`; it never rejects. -/
def logout (remoteOk : Bool) (e : Env) : Except String Unit × Env :=
  if remoteOk then
    (Except.ok (), setAuthToken none e)
  else
    (Except.ok (), setAuthToken none e)

/-- Reducer for `register.pending`. -/
def registerPending (s : AuthState) : AuthState :=
  { s with isLoading := true, error := none }

/-- Reducer for `register.fulfilled`. -/
def registerFulfilled (p : AuthPayload) (s : AuthState) : AuthState :=
  { s with isLoading := false, isAuthenticated := true,
           token := some p.access_token, user := some p.user }

/-- Reducer for `register.rejected`: records the rejection value in `error`. -/
def registerRejected (msg : String) (s : AuthState) : AuthState :=
  { s with isLoading := false, error := some msg }

/-- Reducer for `login.pending`. -/
def loginPending (s : AuthState) : AuthState :=
  { s with isLoading := true, error := none }

/-- Reducer for `login.fulfilled`. -/
def loginFulfilled (p : AuthPayload) (s : AuthState) : AuthState :=
  { s with isLoading := false, isAuthenticated := true,
           token := some p.access_token, user := some p.user }

/-- Reducer for `login.rejected`: records the rejection value in `error`. -/
def loginRejected (msg : String) (s : AuthState) : AuthState :=
  { s with isLoading := false, error := some msg }

/-- Reducer for `checkAuthStatus.pending`. -/
def checkAuthStatusPending (s : AuthState) : AuthState :=
  { s with isLoading := true, error := none }

/-- Reducer for `checkAuthStatus.fulfilled`: marks the session authenticated
and stores the fetched user; it does not touch `token`. -/
def checkAuthStatusFulfilled (p : MePayload) (s : AuthState) : AuthState :=
  { s with isLoading := false, isAuthenticated := true, user := some p.user }

/-- Reducer for `checkAuthStatus.rejected`: clears authentication, token and
user. It takes the rejection value like the source handler's `action`
argument but never reads it; in particular it does not write `error`. -/
def checkAuthStatusRejected (_msg : String) (s : AuthState) : AuthState :=
  { s with isLoading := false, isAuthenticated := false,
           token := none, user := none }

/-- Reducer for `logout.fulfilled`: resets the session to the anonymous
shape. (The slice registers no handler for `logout.pending` or
`logout.rejected`.) -/
def logoutFulfilled (s : AuthState) : AuthState :=
  { s with isAuthenticated := false, token := none, user := none,
           isLoading := false }

/-- The `clearError` reducer of the slice. -/
def clearError (s : AuthState) : AuthState :=
  { s with error := none }

/-- One session-store operation together with the outcome of its remote
request. -/
inductive AuthOp where
  | register (r : ApiResult)
  | login (r : ApiResult)
  | checkStatus (r : MeResult)
  | logout (remoteOk : Bool)
  | clearError
deriving DecidableEq, Repr

/-- Run one full operation: pending reducer, thunk body (environment
effects), then the fulfilled or rejected reducer. A rejected `logout` cannot
occur (the thunk never rejects), and the slice has no handler for it, so that
branch leaves the state unchanged. -/
def step (op : AuthOp) (se : AuthState × Env) : AuthState × Env :=
  match op with
  | AuthOp.register r =>
    let s1 := registerPending se.1
    match register r se.2 with
    | (Except.ok p, e1) => (registerFulfilled p s1, e1)
    | (Except.error m, e1) => (registerRejected m s1, e1)
  | AuthOp.login r =>
    let s1 := loginPending se.1
    match login r se.2 with
    | (Except.ok p, e1) => (loginFulfilled p s1, e1)
    | (Except.error m, e1) => (loginRejected m s1, e1)
  | AuthOp.checkStatus r =>
    let s1 := checkAuthStatusPending se.1
    let c := checkAuthStatus r se.2
    match c.result with
    | Except.ok p => (checkAuthStatusFulfilled p s1, c.env)
    | Except.error m => (checkAuthStatusRejected m s1, c.env)
  | AuthOp.logout remoteOk =>
    match logout remoteOk se.2 with
    | (Except.ok _, e1) => (logoutFulfilled se.1, e1)
    | (Except.error _, e1) => (se.1, e1)
  | AuthOp.clearError => (clearError se.1, se.2)

/-- Run a sequence of operations. -/
def runOps : List AuthOp → AuthState × Env → AuthState × Env
  | [], se => se
  | op :: ops, se => runOps ops (step op se)

/-- The slice `initialState`: the token is seeded from localStorage
(`persisted`), nobody is authenticated yet, and the initial status check is
considered in flight. -/
def initialState (persisted : Option String) : AuthState :=
  { token := persisted, isAuthenticated := false, user := none,
    isLoading := true, error := none }

/-- The environment at process start: axios has no default Authorization
header yet, and localStorage holds whatever token persisted. -/
def initEnv (persisted : Option String) : Env :=
  { header := none, lsToken := persisted }

/-- What the route guard renders: nothing (`null`), a redirect
(`<Navigate to=.../>`), or the wrapped view (`children`). -/
inductive Render where
  | nothing
  | navigate (dest : String)
  | children
deriving DecidableEq, Repr

/-- The `ProtectedRoute` guard: suspend while loading; redirect to the login
view when unauthenticated; redirect home when a truthy `requiredRole` is
given and `user?.role !== requiredRole` (an absent user's role is `undefined`
and differs from any string); otherwise render the wrapped view. -/
def ProtectedRoute (isAuthenticated : Bool) (user : Option User)
    (isLoading : Bool) (requiredRole : Option String) : Render :=
  if isLoading then
    Render.nothing
  else if isAuthenticated = false then
    Render.navigate "/login"
  else if jsTruthy requiredRole = true ∧ Option.map User.role user ≠ requiredRole then
    Render.navigate "/"
  else
    Render.children

/-- The route-guard behavior as the specification words it, for comparison
with `ProtectedRoute`: the role check fires whenever `requiredRole` is
specified (present), with no truthiness caveat. -/
def specProtectedRoute (isAuthenticated : Bool) (user : Option User)
    (isLoading : Bool) (requiredRole : Option String) : Render :=
  if isLoading then
    Render.nothing
  else if isAuthenticated = false then
    Render.navigate "/login"
  else if requiredRole ≠ none ∧ Option.map User.role user ≠ requiredRole then
    Render.navigate "/"
  else
    Render.children

/-- The route-guard behavior as the specification words it, amended so the
role check fires only when `requiredRole` is specified as a non-empty
string. -/
def amendedSpecProtectedRoute (isAuthenticated : Bool) (user : Option User)
    (isLoading : Bool) (requiredRole : Option String) : Render :=
  if isLoading then
    Render.nothing
  else if isAuthenticated = false then
    Render.navigate "/login"
  else if requiredRole ≠ none ∧ requiredRole ≠ some "" ∧
      Option.map User.role user ≠ requiredRole then
    Render.navigate "/"
  else
    Render.children

/-- The failure-message normalization as the specification words it, for
comparison with the thunks' `jsOr`: prefer the server-supplied error field
whenever it is present, with no truthiness caveat. -/
def specErrorMessage (serverError : Option String) (fallback : String) : String :=
  match serverError with
  | some s => s
  | none => fallback

/-- The inductive invariant of the session store, tying the slice state to
the browser environment: an authenticated session has a user record, an
absent token forces the anonymous flag, and any non-empty token held in
localStorage is also the one in the slice state. -/
def SessionInv (s : AuthState) (e : Env) : Prop :=
  (s.isAuthenticated = true → s.user ≠ none) ∧
  (s.token = none → s.isAuthenticated = false) ∧
  (∀ t : String, t ≠ "" → e.lsToken = some t → s.token = some t)

/-! ### Invariant machinery -/

/-- After `setAuthToken` the header and the localStorage key always hold the
same value. -/
lemma setAuthToken_header_eq_lsToken (tok : Option String) (e : Env) :
    (setAuthToken tok e).header = (setAuthToken tok e).lsToken := by
  unfold setAuthToken
  split <;> rfl

/-- If localStorage holds `t` after `setAuthToken tok`, then `tok = some t`. -/
lemma setAuthToken_lsToken_some (tok : Option String) (e : Env) (t : String)
    (h : (setAuthToken tok e).lsToken = some t) : tok = some t := by
  unfold setAuthToken at h
  split at h <;> simp_all

/-- Every single operation preserves `SessionInv`. -/
lemma step_sessionInv (op : AuthOp) (se : AuthState × Env)
    (h : SessionInv se.1 se.2) : SessionInv (step op se).1 (step op se).2 := by
  obtain ⟨s, e⟩ := se
  obtain ⟨h1, h2, h3⟩ := h
  cases op with
  | register r =>
    cases r with
    | ok p =>
      refine ⟨?_, ?_, ?_⟩
      · simp [step, register, registerFulfilled, registerPending]
      · simp [step, register, registerFulfilled, registerPending]
      · intro t _ ht
        simp only [step, register] at ht ⊢
        have := setAuthToken_lsToken_some (some p.access_token) e t ht
        simp only [registerFulfilled, registerPending]
        simpa using this
    | err se' =>
      exact ⟨by simpa [step, register, registerRejected, registerPending] using h1,
             by simpa [step, register, registerRejected, registerPending] using h2,
             by simpa [step, register, registerRejected, registerPending] using h3⟩
  | login r =>
    cases r with
    | ok p =>
      refine ⟨?_, ?_, ?_⟩
      · simp [step, login, loginFulfilled, loginPending]
      · simp [step, login, loginFulfilled, loginPending]
      · intro t _ ht
        simp only [step, login] at ht ⊢
        have := setAuthToken_lsToken_some (some p.access_token) e t ht
        simp only [loginFulfilled, loginPending]
        simpa using this
    | err se' =>
      exact ⟨by simpa [step, login, loginRejected, loginPending] using h1,
             by simpa [step, login, loginRejected, loginPending] using h2,
             by simpa [step, login, loginRejected, loginPending] using h3⟩
  | checkStatus r =>
    rcases he : e.lsToken with _ | t
    · refine ⟨?_, ?_, ?_⟩ <;>
        simp [step, checkAuthStatus, he, checkAuthStatusRejected,
          checkAuthStatusPending]
    · by_cases ht0 : t = ""
      · refine ⟨?_, ?_, ?_⟩
        · simp [step, checkAuthStatus, he, ht0, checkAuthStatusRejected,
            checkAuthStatusPending]
        · simp [step, checkAuthStatus, he, ht0, checkAuthStatusRejected,
            checkAuthStatusPending]
        · intro u hu hlst
          simp [step, checkAuthStatus, he, ht0, checkAuthStatusRejected,
            checkAuthStatusPending] at hlst ⊢
          exact absurd hlst.symm hu
      · have hst : s.token = some t := h3 t ht0 he
        cases r with
        | ok p =>
          have hc : checkAuthStatus (MeResult.ok p) e =
              ⟨Except.ok p, setAuthToken (some t) e, true⟩ := by
            simp [checkAuthStatus, he, ht0]
          refine ⟨?_, ?_, ?_⟩
          · simp [step, hc, checkAuthStatusFulfilled, checkAuthStatusPending]
          · simp [step, hc, checkAuthStatusFulfilled, checkAuthStatusPending,
              hst]
          · intro u _ hu
            simp only [step, hc] at hu ⊢
            have := setAuthToken_lsToken_some (some t) e u hu
            simp only [checkAuthStatusFulfilled, checkAuthStatusPending]
            simp only [Option.some.injEq] at this
            simp [hst, this]
        | err se' =>
          refine ⟨?_, ?_, ?_⟩ <;>
            simp [step, checkAuthStatus, he, ht0, checkAuthStatusRejected,
              checkAuthStatusPending, setAuthToken, jsTruthy]
  | logout remoteOk =>
    cases remoteOk <;>
      refine ⟨?_, ?_, ?_⟩ <;>
        simp [step, logout, logoutFulfilled, setAuthToken, jsTruthy]
  | clearError =>
    exact ⟨by simpa [step, clearError] using h1,
           by simpa [step, clearError] using h2,
           by simpa [step, clearError] using h3⟩

/-- Any sequence of operations preserves `SessionInv`. -/
lemma runOps_sessionInv (ops : List AuthOp) :
    ∀ se : AuthState × Env, SessionInv se.1 se.2 →
      SessionInv (runOps ops se).1 (runOps ops se).2 := by
  induction ops with
  | nil => intro se h; exact h
  | cons op ops ih =>
    intro se h
    exact ih (step op se) (step_sessionInv op se h)

/-- The initial state and environment satisfy `SessionInv` for any persisted
token. -/
lemma init_sessionInv (persisted : Option String) :
    SessionInv (initialState persisted) (initEnv persisted) := by
  refine ⟨?_, ?_, ?_⟩ <;> simp [initialState, initEnv]

/-! ### Claims -/

/-- C1: whatever the session state, the environment and the outcome of the
remote logout request, running `logout` leaves `isAuthenticated = false`, no
token and no user in the state, clears both halves of the environment, does
not record any error (the `error` field is exactly what it was before), and
the thunk itself always fulfills — it never rejects. -/
theorem logout_always_resets (s : AuthState) (e : Env) (remoteOk : Bool) :
    (step (AuthOp.logout remoteOk) (s, e)).1.isAuthenticated = false ∧
    (step (AuthOp.logout remoteOk) (s, e)).1.token = none ∧
    (step (AuthOp.logout remoteOk) (s, e)).1.user = none ∧
    (step (AuthOp.logout remoteOk) (s, e)).1.error = s.error ∧
    (step (AuthOp.logout remoteOk) (s, e)).2.header = none ∧
    (step (AuthOp.logout remoteOk) (s, e)).2.lsToken = none ∧
    (logout remoteOk e).1 = Except.ok () := by
  cases remoteOk <;>
    simp [step, logout, logoutFulfilled, setAuthToken, jsTruthy]

/-- C2: in every session state reachable from the initial state by any
sequence of operations (each with either outcome), `isAuthenticated = true`
implies the `user` record is present. -/
theorem reachable_auth_implies_user (persisted : Option String)
    (ops : List AuthOp)
    (h : (runOps ops (initialState persisted, initEnv persisted)).1.isAuthenticated = true) :
    (runOps ops (initialState persisted, initEnv persisted)).1.user ≠ none := by
  exact (runOps_sessionInv ops (initialState persisted, initEnv persisted)
    (init_sessionInv persisted)).1 h

/-- Witness for C2 at a concrete reachable state: after a successful login
the session is authenticated and the user record is present. -/
theorem reachable_auth_implies_user_witness :
    (runOps [AuthOp.login (ApiResult.ok ⟨"tok", ⟨1, "ann", "ann@x.com", "user"⟩⟩)]
      (initialState none, initEnv none)).1.isAuthenticated = true ∧
    (runOps [AuthOp.login (ApiResult.ok ⟨"tok", ⟨1, "ann", "ann@x.com", "user"⟩⟩)]
      (initialState none, initEnv none)).1.user ≠ none := by
  refine ⟨by decide, ?_⟩
  exact reachable_auth_implies_user none
    [AuthOp.login (ApiResult.ok ⟨"tok", ⟨1, "ann", "ann@x.com", "user"⟩⟩)]
    (by decide)

/-- C5: in every session state reachable from the initial state by any
sequence of operations (each with either outcome), an absent token implies
`isAuthenticated = false`. -/
theorem reachable_no_token_not_auth (persisted : Option String)
    (ops : List AuthOp)
    (h : (runOps ops (initialState persisted, initEnv persisted)).1.token = none) :
    (runOps ops (initialState persisted, initEnv persisted)).1.isAuthenticated = false := by
  exact (runOps_sessionInv ops (initialState persisted, initEnv persisted)
    (init_sessionInv persisted)).2.1 h

/-- Witness for C5 at a concrete reachable state: after a logout the token is
absent and the session is unauthenticated. -/
theorem reachable_no_token_not_auth_witness :
    (runOps [AuthOp.logout true] (initialState (some "tok"),
      initEnv (some "tok"))).1.token = none ∧
    (runOps [AuthOp.logout true] (initialState (some "tok"),
      initEnv (some "tok"))).1.isAuthenticated = false := by
  refine ⟨by decide, ?_⟩
  exact reachable_no_token_not_auth (some "tok") [AuthOp.logout true] (by decide)

/-- C10: the `clearError` reducer sets `error` to absent and leaves the
token, the authentication flag, the user record and the loading flag
untouched. -/
theorem clearError_only_clears_error (s : AuthState) :
    (clearError s).error = none ∧
    (clearError s).token = s.token ∧
    (clearError s).isAuthenticated = s.isAuthenticated ∧
    (clearError s).user = s.user ∧
    (clearError s).isLoading = s.isLoading := by
  simp [clearError]

/-- C3, counterexample: run `checkStatus` from the initial state with no
persisted token. The slice's `error` field ends up absent — not the string
"No token found" the claim promises — because the rejected handler never
writes `error` and the pending handler cleared it. -/
theorem checkStatus_no_token_error_field_counterexample :
    (runOps [AuthOp.checkStatus (MeResult.err none)]
      (initialState none, initEnv none)).1.error = none ∧
    (runOps [AuthOp.checkStatus (MeResult.err none)]
      (initialState none, initEnv none)).1.error ≠ some "No token found" := by
  decide

/-- C3, amended: when `checkStatus` runs with no (truthy) token in
localStorage, it issues no network request and its rejection value is the
string "No token found"; but the session's `error` field ends up absent,
since the status-check rejection handler does not record the message, and
the environment is untouched. -/
theorem checkStatus_no_token_behavior (s : AuthState) (e : Env) (r : MeResult)
    (h : jsTruthy e.lsToken = false) :
    (checkAuthStatus r e).requestedMe = false ∧
    (checkAuthStatus r e).result = Except.error "No token found" ∧
    (step (AuthOp.checkStatus r) (s, e)).1.error = none ∧
    (step (AuthOp.checkStatus r) (s, e)).2 = e := by
  rcases he : e.lsToken with _ | t
  · refine ⟨?_, ?_, ?_, ?_⟩ <;>
      simp [step, checkAuthStatus, he, checkAuthStatusRejected,
        checkAuthStatusPending]
  · have ht : t = "" := by simpa [jsTruthy, he] using h
    refine ⟨?_, ?_, ?_, ?_⟩ <;>
      simp [step, checkAuthStatus, he, ht, checkAuthStatusRejected,
        checkAuthStatusPending]

/-- Witness for C3's amended theorem at the initial state with no persisted
token. -/
theorem checkStatus_no_token_behavior_witness :
    (checkAuthStatus (MeResult.err none) (initEnv none)).requestedMe = false ∧
    (checkAuthStatus (MeResult.err none) (initEnv none)).result =
      Except.error "No token found" ∧
    (step (AuthOp.checkStatus (MeResult.err none))
      (initialState none, initEnv none)).1.error = none ∧
    (step (AuthOp.checkStatus (MeResult.err none))
      (initialState none, initEnv none)).2 = initEnv none := by
  exact checkStatus_no_token_behavior (initialState none) (initEnv none)
    (MeResult.err none) (by decide)

/-- C4, counterexample: with an authenticated session whose user has role
"user", not loading, and `requiredRole` given as the empty string, the code
renders the wrapped view (the empty string is falsy, so the role check is
skipped) while the claim's reading — the role check fires whenever
`requiredRole` is specified — redirects home. -/
theorem protectedRoute_counterexample :
    ProtectedRoute true (some ⟨1, "ann", "ann@x.com", "user"⟩) false (some "") =
      Render.children ∧
    specProtectedRoute true (some ⟨1, "ann", "ann@x.com", "user"⟩) false (some "") =
      Render.navigate "/" ∧
    ProtectedRoute true (some ⟨1, "ann", "ann@x.com", "user"⟩) false (some "") ≠
      specProtectedRoute true (some ⟨1, "ann", "ann@x.com", "user"⟩) false (some "") := by
  decide

/-- C4, amended: the route guard is a pure function of
`(isAuthenticated, user role, isLoading, requiredRole)`: it suspends while
loading, redirects unauthenticated sessions to the login view, redirects home
when `requiredRole` is specified as a non-empty string and the user's role
differs, and renders the view otherwise; in particular a "user"-role session
is denied an "admin"-required view and an "admin"-role session is allowed. -/
theorem protectedRoute_matches_amended_spec :
    (∀ (isAuthenticated : Bool) (user : Option User) (isLoading : Bool)
        (requiredRole : Option String),
      ProtectedRoute isAuthenticated user isLoading requiredRole =
        amendedSpecProtectedRoute isAuthenticated user isLoading requiredRole) ∧
    ProtectedRoute true (some ⟨1, "ann", "ann@x.com", "user"⟩) false
      (some "admin") = Render.navigate "/" ∧
    ProtectedRoute true (some ⟨2, "root", "root@x.com", "admin"⟩) false
      (some "admin") = Render.children := by
  refine ⟨?_, by decide, by decide⟩
  intro isAuthenticated user isLoading requiredRole
  cases requiredRole with
  | none =>
    simp [ProtectedRoute, amendedSpecProtectedRoute, jsTruthy]
  | some r =>
    by_cases hr : r = "" <;>
      simp [ProtectedRoute, amendedSpecProtectedRoute, jsTruthy, hr]

/-- C6: when a persisted (truthy) token exists and the verification request
of `checkStatus` fails, the token is purged from the axios header, from
localStorage and from the slice state, and the session resets to the
anonymous shape: not authenticated, no token, no user. -/
theorem checkStatus_failure_purges_token (s : AuthState) (e : Env)
    (t : String) (serverError : Option String)
    (hls : e.lsToken = some t) (ht : t ≠ "") :
    (checkAuthStatus (MeResult.err serverError) e).env.header = none ∧
    (checkAuthStatus (MeResult.err serverError) e).env.lsToken = none ∧
    (step (AuthOp.checkStatus (MeResult.err serverError)) (s, e)).1.isAuthenticated = false ∧
    (step (AuthOp.checkStatus (MeResult.err serverError)) (s, e)).1.token = none ∧
    (step (AuthOp.checkStatus (MeResult.err serverError)) (s, e)).1.user = none := by
  refine ⟨?_, ?_, ?_, ?_, ?_⟩ <;>
    simp [step, checkAuthStatus, hls, ht, checkAuthStatusRejected,
      checkAuthStatusPending, setAuthToken, jsTruthy]

/-- Witness for C6 with a concrete persisted token and failing
verification. -/
theorem checkStatus_failure_purges_token_witness :
    (checkAuthStatus (MeResult.err none) (initEnv (some "tok"))).env.header = none ∧
    (checkAuthStatus (MeResult.err none) (initEnv (some "tok"))).env.lsToken = none ∧
    (step (AuthOp.checkStatus (MeResult.err none))
      (initialState (some "tok"), initEnv (some "tok"))).1.isAuthenticated = false ∧
    (step (AuthOp.checkStatus (MeResult.err none))
      (initialState (some "tok"), initEnv (some "tok"))).1.token = none ∧
    (step (AuthOp.checkStatus (MeResult.err none))
      (initialState (some "tok"), initEnv (some "tok"))).1.user = none := by
  exact checkStatus_failure_purges_token (initialState (some "tok"))
    (initEnv (some "tok")) "tok" none rfl (by decide)

/-- C7, counterexample: when the server supplies an error field that is the
empty string, the `register` thunk rejects with the fallback "Registration
failed", not with the server-supplied field as the claim's reading
(`specErrorMessage`, prefer the field whenever present) prescribes. -/
theorem error_normalization_counterexample :
    (register (ApiResult.err (some "")) (initEnv none)).1 =
      Except.error "Registration failed" ∧
    specErrorMessage (some "") "Registration failed" = "" ∧
    (register (ApiResult.err (some "")) (initEnv none)).1 ≠
      Except.error (specErrorMessage (some "") "Registration failed") := by
  refine ⟨rfl, rfl, ?_⟩
  simp [register, jsOr, specErrorMessage]

/-- C7, amended: every failure of register, login or checkStatus is
normalized to a single string: the server-supplied error field when it is
present and non-empty, otherwise "Registration failed" for register, "Login
failed" for login, "Authentication failed" for a failed verification, and
"No token found" when checkStatus runs with no (truthy) stored token. -/
theorem thunk_error_normalization (serverError : Option String) (e : Env) :
    (∀ m : String, serverError = some m → m ≠ "" →
      (register (ApiResult.err serverError) e).1 = Except.error m ∧
      (login (ApiResult.err serverError) e).1 = Except.error m ∧
      (∀ t : String, e.lsToken = some t → t ≠ "" →
        (checkAuthStatus (MeResult.err serverError) e).result = Except.error m)) ∧
    ((serverError = none ∨ serverError = some "") →
      (register (ApiResult.err serverError) e).1 = Except.error "Registration failed" ∧
      (login (ApiResult.err serverError) e).1 = Except.error "Login failed" ∧
      (∀ t : String, e.lsToken = some t → t ≠ "" →
        (checkAuthStatus (MeResult.err serverError) e).result =
          Except.error "Authentication failed")) ∧
    (jsTruthy e.lsToken = false →
      (checkAuthStatus (MeResult.err serverError) e).result =
        Except.error "No token found") := by
  refine ⟨?_, ?_, ?_⟩
  · intro m hm hne
    subst hm
    refine ⟨?_, ?_, ?_⟩
    · simp [register, jsOr, hne]
    · simp [login, jsOr, hne]
    · intro t hls ht
      simp [checkAuthStatus, hls, ht, jsOr, hne]
  · intro hse
    rcases hse with hse | hse <;> subst hse
    · exact ⟨by simp [register, jsOr], by simp [login, jsOr],
        fun t hls ht => by simp [checkAuthStatus, hls, ht, jsOr]⟩
    · exact ⟨by simp [register, jsOr], by simp [login, jsOr],
        fun t hls ht => by simp [checkAuthStatus, hls, ht, jsOr]⟩
  · intro h
    rcases he : e.lsToken with _ | t
    · simp [checkAuthStatus, he]
    · have ht : t = "" := by simpa [jsTruthy, he] using h
      simp [checkAuthStatus, he, ht]

/-- Witness for C7's amended theorem at concrete failures: a non-empty
server message is kept, an absent one falls back, and a missing stored token
yields "No token found". -/
theorem thunk_error_normalization_witness :
    (register (ApiResult.err (some "boom")) (initEnv none)).1 =
      Except.error "boom" ∧
    (register (ApiResult.err none) (initEnv none)).1 =
      Except.error "Registration failed" ∧
    (checkAuthStatus (MeResult.err none) (initEnv none)).result =
      Except.error "No token found" := by
  refine ⟨?_, ?_, ?_⟩
  · exact ((thunk_error_normalization (some "boom") (initEnv none)).1 "boom"
      rfl (by decide)).1
  · exact ((thunk_error_normalization none (initEnv none)).2.1 (Or.inl rfl)).1
  · exact (thunk_error_normalization none (initEnv none)).2.2 (by decide)

/-- C8: from an unauthenticated session with no token set, a failed login
sets the `error` field to the normalized failure message, leaves
`isAuthenticated` false and the token unset, keeps the user field unchanged,
and does not touch the environment. -/
theorem login_failure_frame (s : AuthState) (e : Env)
    (serverError : Option String)
    (hauth : s.isAuthenticated = false) (htok : s.token = none) :
    (step (AuthOp.login (ApiResult.err serverError)) (s, e)).1.error =
      some (jsOr serverError "Login failed") ∧
    (step (AuthOp.login (ApiResult.err serverError)) (s, e)).1.isAuthenticated = false ∧
    (step (AuthOp.login (ApiResult.err serverError)) (s, e)).1.token = none ∧
    (step (AuthOp.login (ApiResult.err serverError)) (s, e)).1.user = s.user ∧
    (step (AuthOp.login (ApiResult.err serverError)) (s, e)).2 = e := by
  refine ⟨?_, ?_, ?_, ?_, ?_⟩ <;>
    simp [step, login, loginRejected, loginPending, hauth, htok]

/-- Witness for C8 at the initial state with no persisted token and a failed
login with no structured server message. -/
theorem login_failure_frame_witness :
    (step (AuthOp.login (ApiResult.err none))
      (initialState none, initEnv none)).1.error =
        some (jsOr none "Login failed") ∧
    (step (AuthOp.login (ApiResult.err none))
      (initialState none, initEnv none)).1.isAuthenticated = false ∧
    (step (AuthOp.login (ApiResult.err none))
      (initialState none, initEnv none)).1.token = none ∧
    (step (AuthOp.login (ApiResult.err none))
      (initialState none, initEnv none)).1.user = (initialState none).user ∧
    (step (AuthOp.login (ApiResult.err none))
      (initialState none, initEnv none)).2 = initEnv none := by
  exact login_failure_frame (initialState none) (initEnv none) none rfl rfl

/-- Every operation preserves agreement between the axios header and the
localStorage key: each either leaves the environment alone or goes through
`setAuthToken`, which writes both. -/
lemma step_env_agree (op : AuthOp) (se : AuthState × Env)
    (h : se.2.header = se.2.lsToken) :
    (step op se).2.header = (step op se).2.lsToken := by
  obtain ⟨s, e⟩ := se
  cases op with
  | register r =>
    cases r with
    | ok p =>
      simpa [step, register] using
        setAuthToken_header_eq_lsToken (some p.access_token) e
    | err se' => simpa [step, register] using h
  | login r =>
    cases r with
    | ok p =>
      simpa [step, login] using
        setAuthToken_header_eq_lsToken (some p.access_token) e
    | err se' => simpa [step, login] using h
  | checkStatus r =>
    rcases he : e.lsToken with _ | t
    · simpa [step, checkAuthStatus, he] using h
    · by_cases ht : t = ""
      · simpa [step, checkAuthStatus, he, ht] using h
      · cases r with
        | ok p =>
          simpa [step, checkAuthStatus, he, ht] using
            setAuthToken_header_eq_lsToken (some t) e
        | err se' =>
          simpa [step, checkAuthStatus, he, ht] using
            setAuthToken_header_eq_lsToken none (setAuthToken (some t) e)
  | logout remoteOk =>
    cases remoteOk <;>
      simpa [step, logout] using setAuthToken_header_eq_lsToken none e
  | clearError => simpa [step, clearError] using h

/-- Agreement between the header and localStorage is preserved by any
sequence of operations. -/
lemma runOps_env_agree (ops : List AuthOp) :
    ∀ se : AuthState × Env, se.2.header = se.2.lsToken →
      (runOps ops se).2.header = (runOps ops se).2.lsToken := by
  induction ops with
  | nil => intro se h; exact h
  | cons op ops ih =>
    intro se h
    exact ih (step op se) (step_env_agree op se h)

/-- The initial status check establishes header/localStorage agreement from
the process-start environment (fresh header), for any persisted token other
than the pathological empty string. -/
lemma checkStatus_establishes_env_agree (persisted : Option String)
    (r : MeResult) (h : persisted ≠ some "") :
    (step (AuthOp.checkStatus r) (initialState persisted, initEnv persisted)).2.header =
    (step (AuthOp.checkStatus r) (initialState persisted, initEnv persisted)).2.lsToken := by
  rcases persisted with _ | t
  · simp [step, checkAuthStatus, initEnv]
  · have ht : t ≠ "" := by
      intro h0
      exact h (by simp [h0])
    cases r with
    | ok p =>
      simpa [step, checkAuthStatus, initEnv, ht] using
        setAuthToken_header_eq_lsToken (some t) (initEnv (some t))
    | err se' =>
      simpa [step, checkAuthStatus, initEnv, ht] using
        setAuthToken_header_eq_lsToken none
          (setAuthToken (some t) (initEnv (some t)))

/-- C9, counterexample: from the process-start state with a persisted token,
the axios header is still fresh (absent); a session operation that never
touches the token — here a failed login — leaves the header and the durable
store disagreeing, so agreement does not hold after every sequence of
operations. -/
theorem token_dual_write_counterexample :
    (runOps [AuthOp.login (ApiResult.err none)]
      (initialState (some "tok"), initEnv (some "tok"))).2.header ≠
    (runOps [AuthOp.login (ApiResult.err none)]
      (initialState (some "tok"), initEnv (some "tok"))).2.lsToken := by
  decide

/-- C9, amended: every token write goes through `setAuthToken`, which sets
both the axios header and localStorage for a truthy token and clears both
otherwise, so the two always agree right after it; agreement between header
and durable store is preserved by every session operation; and the initial
status check — which the application always dispatches first — establishes
agreement from the process-start environment (fresh header, any persisted
token other than the empty string), after which it holds through any
sequence of operations. -/
theorem token_dual_write_consistency :
    (∀ (tok : Option String) (e : Env),
      (setAuthToken tok e).header = (setAuthToken tok e).lsToken ∧
      (jsTruthy tok = true → (setAuthToken tok e).header = tok ∧
        (setAuthToken tok e).lsToken = tok) ∧
      (jsTruthy tok = false → (setAuthToken tok e).header = none ∧
        (setAuthToken tok e).lsToken = none)) ∧
    (∀ (op : AuthOp) (s : AuthState) (e : Env), e.header = e.lsToken →
      (step op (s, e)).2.header = (step op (s, e)).2.lsToken) ∧
    (∀ (persisted : Option String) (r : MeResult) (ops : List AuthOp),
      persisted ≠ some "" →
      (runOps ops (step (AuthOp.checkStatus r)
        (initialState persisted, initEnv persisted))).2.header =
      (runOps ops (step (AuthOp.checkStatus r)
        (initialState persisted, initEnv persisted))).2.lsToken) := by
  refine ⟨?_, ?_, ?_⟩
  · intro tok e
    refine ⟨setAuthToken_header_eq_lsToken tok e, ?_, ?_⟩
    · intro h
      simp [setAuthToken, h]
    · intro h
      simp [setAuthToken, h]
  · intro op s e h
    exact step_env_agree op (s, e) h
  · intro persisted r ops h
    exact runOps_env_agree ops _ (checkStatus_establishes_env_agree persisted r h)

/-- Witness for C9's amended theorem at concrete inputs: a fresh token write
agrees, a logout from an agreeing environment preserves agreement, and the
startup status check followed by a failed login leaves the header and the
durable store agreeing. -/
theorem token_dual_write_consistency_witness :
    (setAuthToken (some "tok") (initEnv none)).header =
      (setAuthToken (some "tok") (initEnv none)).lsToken ∧
    (step (AuthOp.logout true) (initialState none, initEnv none)).2.header =
      (step (AuthOp.logout true) (initialState none, initEnv none)).2.lsToken ∧
    (runOps [AuthOp.login (ApiResult.err none)]
      (step (AuthOp.checkStatus (MeResult.err none))
        (initialState (some "tok"), initEnv (some "tok")))).2.header =
    (runOps [AuthOp.login (ApiResult.err none)]
      (step (AuthOp.checkStatus (MeResult.err none))
        (initialState (some "tok"), initEnv (some "tok")))).2.lsToken := by
  refine ⟨(token_dual_write_consistency.1 (some "tok") (initEnv none)).1, ?_, ?_⟩
  · exact token_dual_write_consistency.2.1 (AuthOp.logout true)
      (initialState none) (initEnv none) rfl
  · exact token_dual_write_consistency.2.2 (some "tok") (MeResult.err none)
      [AuthOp.login (ApiResult.err none)] (by decide)

end PovertyLine
